import Mathlib

/-!
Shallow embedding of the RTQF sensor-fusion filter from
`src/RTIMULib/RTFusionRTQF.cpp` (RTIMULib).  The filter fuses gyro, accel
and compass samples into a quaternion orientation estimate using a
predict step (first-order integration of the quaternion kinematic
equation) and an update step (either a linear complementary correction or
a slerp correction, chosen by the build flag `USE_SLERP`).

`RTFLOAT` values are modelled as real numbers.  The companion math
library (RTMath: quaternion/vector/matrix arithmetic, Euler conversions)
and the headers (`RTFusionRTQF.h`, `RTFusion.h`, `RTIMULibDefs.h`,
`RTIMUHal.h`) are not part of `src/`; the parts of them the filter needs
are modelled from the spec and marked `Modelled from the spec:` below.
-/

namespace RTQF

/-- Three-component vector of reals, embedding `RTVector3` (spec section 3). -/
@[ext] structure RTVector3 where
  x : ℝ
  y : ℝ
  z : ℝ

/-- Four-component quaternion (scalar + 3-vector), embedding `RTQuaternion`
(spec section 3). -/
@[ext] structure RTQuaternion where
  scalar : ℝ
  x : ℝ
  y : ℝ
  z : ℝ

namespace RTVector3

/-- Modelled from the spec: the `RTVector3()` default constructor yields the
zero vector (spec section 3, lifecycle: zero pose). -/
def zero : RTVector3 := ⟨0, 0, 0⟩

/-- Squared Euclidean length of a vector. -/
def normSq (v : RTVector3) : ℝ := v.x ^ 2 + v.y ^ 2 + v.z ^ 2

/-- Componentwise scalar multiple. -/
def smul (v : RTVector3) (c : ℝ) : RTVector3 := ⟨c * v.x, c * v.y, c * v.z⟩

/-- Modelled from the spec: `RTVector3::normalize` divides each component by
the Euclidean length (spec section 3; the length-zero vector is left
unchanged, which the real-division-by-zero convention also yields). -/
noncomputable def normalize (v : RTVector3) : RTVector3 :=
  v.smul (Real.sqrt v.normSq)⁻¹

end RTVector3

namespace RTQuaternion

/-- Modelled from the spec: the `RTQuaternion()` default constructor yields
the all-zero quaternion, used in the linear update when both correction
sources are disabled so that the correction term vanishes (spec section
4.3: the predicted quaternion passes through unmodified). -/
def zero : RTQuaternion := ⟨0, 0, 0, 0⟩

/-- Componentwise quaternion sum (`operator +=`). -/
def add (p q : RTQuaternion) : RTQuaternion :=
  ⟨p.scalar + q.scalar, p.x + q.x, p.y + q.y, p.z + q.z⟩

/-- Componentwise quaternion difference (`operator -`), spec section 3:
subtraction is only meaningful as a small-angle error proxy. -/
def sub (p q : RTQuaternion) : RTQuaternion :=
  ⟨p.scalar - q.scalar, p.x - q.x, p.y - q.y, p.z - q.z⟩

/-- Componentwise scalar multiple (`operator *(RTFLOAT)`). -/
def smul (q : RTQuaternion) (c : ℝ) : RTQuaternion :=
  ⟨c * q.scalar, c * q.x, c * q.y, c * q.z⟩

/-- Modelled from the spec: quaternion multiplication is composition of
rotations (spec section 3), the Hamilton product. -/
def mul (p q : RTQuaternion) : RTQuaternion :=
  ⟨p.scalar * q.scalar - p.x * q.x - p.y * q.y - p.z * q.z,
   p.scalar * q.x + p.x * q.scalar + p.y * q.z - p.z * q.y,
   p.scalar * q.y - p.x * q.z + p.y * q.scalar + p.z * q.x,
   p.scalar * q.z + p.x * q.y - p.y * q.x + p.z * q.scalar⟩

/-- Quaternion conjugate: negate the vector part. -/
def conjugate (q : RTQuaternion) : RTQuaternion := ⟨q.scalar, -q.x, -q.y, -q.z⟩

/-- Squared norm of a quaternion. -/
def normSq (q : RTQuaternion) : ℝ := q.scalar ^ 2 + q.x ^ 2 + q.y ^ 2 + q.z ^ 2

/-- Modelled from the spec: `RTQuaternion::normalize` divides each component
by the Euclidean length, restoring the unit-norm invariant (spec sections 3
and 4.3).  The zero quaternion is left unchanged, which the
real-division-by-zero convention also yields. -/
noncomputable def normalize (q : RTQuaternion) : RTQuaternion :=
  q.smul (Real.sqrt q.normSq)⁻¹

/-- Modelled from the spec: conversion from Euler angles to a quaternion
(spec section 3).  Spec section 9 leaves the exact convention to the
companion library; we fix the standard roll-pitch-yaw half-angle formula.
The result is a unit quaternion (`normSq_fromEuler`). -/
noncomputable def fromEuler (v : RTVector3) : RTQuaternion :=
  let cX2 := Real.cos (v.x / 2)
  let sX2 := Real.sin (v.x / 2)
  let cY2 := Real.cos (v.y / 2)
  let sY2 := Real.sin (v.y / 2)
  let cZ2 := Real.cos (v.z / 2)
  let sZ2 := Real.sin (v.z / 2)
  ⟨cX2 * cY2 * cZ2 + sX2 * sY2 * sZ2,
   sX2 * cY2 * cZ2 - cX2 * sY2 * sZ2,
   cX2 * sY2 * cZ2 + sX2 * cY2 * sZ2,
   cX2 * cY2 * sZ2 - sX2 * sY2 * cZ2⟩

end RTQuaternion

/-- The 4x4 state-transition matrix `m_Fk` (spec section 3), a structure of
sixteen real entries, row-major. -/
@[ext] structure Mat4 where
  m00 : ℝ
  m01 : ℝ
  m02 : ℝ
  m03 : ℝ
  m10 : ℝ
  m11 : ℝ
  m12 : ℝ
  m13 : ℝ
  m20 : ℝ
  m21 : ℝ
  m22 : ℝ
  m23 : ℝ
  m30 : ℝ
  m31 : ℝ
  m32 : ℝ
  m33 : ℝ

namespace Mat4

/-- Embedding of `RTMatrix4x4::setVal(row, col, val)`: overwrite one entry.
Out-of-range indices leave the matrix unchanged (never reached by the
source, which only uses indices 0..3). -/
def setVal (m : Mat4) (r c : Nat) (v : ℝ) : Mat4 :=
  match r, c with
  | 0, 0 => { m with m00 := v }
  | 0, 1 => { m with m01 := v }
  | 0, 2 => { m with m02 := v }
  | 0, 3 => { m with m03 := v }
  | 1, 0 => { m with m10 := v }
  | 1, 1 => { m with m11 := v }
  | 1, 2 => { m with m12 := v }
  | 1, 3 => { m with m13 := v }
  | 2, 0 => { m with m20 := v }
  | 2, 1 => { m with m21 := v }
  | 2, 2 => { m with m22 := v }
  | 2, 3 => { m with m23 := v }
  | 3, 0 => { m with m30 := v }
  | 3, 1 => { m with m31 := v }
  | 3, 2 => { m with m32 := v }
  | 3, 3 => { m with m33 := v }
  | _, _ => m

/-- Embedding of `RTMatrix4x4::fill(val)`: set every entry to `val`. -/
def fill (_m : Mat4) (v : ℝ) : Mat4 :=
  ⟨v, v, v, v, v, v, v, v, v, v, v, v, v, v, v, v⟩

/-- The all-zero matrix, the value `m_Fk.fill(0)` produces. -/
def zeroMat : Mat4 := ⟨0, 0, 0, 0, 0, 0, 0, 0, 0, 0, 0, 0, 0, 0, 0, 0⟩

/-- Modelled from the spec: `RTMatrix4x4 * RTQuaternion` is the usual
matrix-vector product on the four quaternion components. -/
def mulQ (m : Mat4) (q : RTQuaternion) : RTQuaternion :=
  ⟨m.m00 * q.scalar + m.m01 * q.x + m.m02 * q.y + m.m03 * q.z,
   m.m10 * q.scalar + m.m11 * q.x + m.m12 * q.y + m.m13 * q.z,
   m.m20 * q.scalar + m.m21 * q.x + m.m22 * q.y + m.m23 * q.z,
   m.m30 * q.scalar + m.m31 * q.x + m.m32 * q.y + m.m33 * q.z⟩

end Mat4

/-- The per-call IMU sample record `RTIMU_DATA`.  Modelled from the spec:
the record type is declared in `RTIMULibDefs.h`, not in `src/`; section 6
fixes its contents: an integer-microsecond timestamp, gyro/accel/compass
3-vectors, a compass validity flag, and the mutated-in-place outputs
(fused Euler pose, fused quaternion, two validity flags).  The timestamp
is modelled as an integer, and the time delta as the signed difference
divided by 1e6 (sections 4.4 and 6). -/
@[ext] structure RTIMU_DATA where
  timestamp : ℤ
  gyro : RTVector3
  accel : RTVector3
  compass : RTVector3
  compassValid : Bool
  fusionPoseValid : Bool
  fusionQPoseValid : Bool
  fusionPose : RTVector3
  fusionQPose : RTQuaternion

/-- The complete mutable state of one `RTFusionRTQF` filter instance
(member variables of `RTFusionRTQF` and its base `RTFusion`), plus the
construction-time configuration (spec sections 3 and 6): the per-source
enable flags, the debug flag, the build-time correction-mode choice
`useSlerp` (`USE_SLERP`), and the tuning constants `Q`, `R`,
`slerpPower`. -/
@[ext] structure FusionState where
  firstTime : Bool
  stateQ : RTQuaternion
  fusionPose : RTVector3
  fusionQPose : RTQuaternion
  measuredPose : RTVector3
  measuredQPose : RTQuaternion
  gyro : RTVector3
  accel : RTVector3
  compass : RTVector3
  compassValid : Bool
  timeDelta : ℝ
  lastFusionTime : ℤ
  sampleNumber : ℤ
  Fk : Mat4
  stateQError : RTQuaternion
  rotationDelta : RTQuaternion
  rotationPower : RTQuaternion
  rotationUnitVector : RTVector3
  debug : Bool
  enableGyro : Bool
  enableAccel : Bool
  enableCompass : Bool
  useSlerp : Bool
  slerpPower : ℝ
  Q : ℝ
  R : ℝ

/-- Modelled from the spec: the Euler-angle computations of the companion
library that the filter calls but whose code is not in `src/`:
the measured-pose computation of `RTFusion::calculatePose` (spec section
4.1: a pure function of the enable flags, the compass validity flag, the
previous fusion pose, the latest accel/compass samples and the caller
supplied declination) and `RTQuaternion::toEuler` (spec section 3).
Spec section 9 leaves the Euler conventions open, so both are arbitrary
pure functions; every theorem below holds for all of them. -/
structure PoseLib where
  measuredPoseFn : Bool → Bool → Bool → RTVector3 → RTVector3 → RTVector3 → ℝ → RTVector3
  toEulerFn : RTQuaternion → RTVector3

/-- Embedding of `RTFusion::calculatePose` as the spec describes it
(section 4.1): recompute `m_measuredPose` from the current inputs and set
`m_measuredQPose` to its quaternion form.  No other state is written. -/
noncomputable def calculatePose (L : PoseLib) (s : FusionState)
    (accel mag : RTVector3) (magDeclination : ℝ) : FusionState :=
  let mp := L.measuredPoseFn s.enableAccel s.enableCompass s.compassValid
      s.fusionPose accel mag magDeclination
  { s with measuredPose := mp, measuredQPose := RTQuaternion.fromEuler mp }

/-- Embedding of `RTFusionRTQF::predict` (RTFusionRTQF.cpp lines 74-106):
write half of each gyro component into the twelve off-diagonal entries of
the persistent matrix `m_Fk` via `setVal`, then perform the first-order
Euler step `m_stateQ += (m_Fk * m_stateQ) * m_timeDelta`.  No
renormalization. -/
noncomputable def predict (s : FusionState) : FusionState :=
  let x2 := s.gyro.x / 2
  let y2 := s.gyro.y / 2
  let z2 := s.gyro.z / 2
  let fk :=
    ((((((((((((s.Fk.setVal 0 1 (-x2)).setVal 0 2 (-y2)).setVal 0 3 (-z2)).setVal
      1 0 x2).setVal 1 2 z2).setVal 1 3 (-y2)).setVal
      2 0 y2).setVal 2 1 (-z2)).setVal 2 3 x2).setVal
      3 0 z2).setVal 3 1 y2).setVal 3 2 (-x2))
  let tQuat := (fk.mulQ s.stateQ).smul s.timeDelta
  { s with Fk := fk, stateQ := s.stateQ.add tQuat }

/-- The normalized rotation delta `m_rotationDelta` of the slerp update:
`(m_stateQ.conjugate() * m_measuredQPose).normalize()`
(RTFusionRTQF.cpp lines 116-117). -/
noncomputable def rotationDeltaOf (s : FusionState) : RTQuaternion :=
  ((s.stateQ.conjugate).mul s.measuredQPose).normalize

/-- The rotation angle `theta = acos(m_rotationDelta.scalar())` of the slerp
update (RTFusionRTQF.cpp line 121).  The source passes the scalar to
`acos` with no clamping; `Real.arccos` is the total idealization of
`acos`. -/
noncomputable def slerpTheta (s : FusionState) : ℝ :=
  Real.arccos (rotationDeltaOf s).scalar

/-- The normalized rotation axis `m_rotationUnitVector` of the slerp update
(RTFusionRTQF.cpp lines 126-129). -/
noncomputable def rotationUnitVectorOf (s : FusionState) : RTVector3 :=
  (RTVector3.mk (rotationDeltaOf s).x (rotationDeltaOf s).y
    (rotationDeltaOf s).z).normalize

/-- The partial-rotation quaternion `m_rotationPower` of the slerp update
(RTFusionRTQF.cpp lines 123-135): scalar `cos(theta * power)`, vector
`sin(theta * power)` times the rotation unit vector, then normalized. -/
noncomputable def rotationPowerOf (s : FusionState) : RTQuaternion :=
  let sinPowerTheta := Real.sin (slerpTheta s * s.slerpPower)
  let cosPowerTheta := Real.cos (slerpTheta s * s.slerpPower)
  (RTQuaternion.mk cosPowerTheta
    (sinPowerTheta * (rotationUnitVectorOf s).x)
    (sinPowerTheta * (rotationUnitVectorOf s).y)
    (sinPowerTheta * (rotationUnitVectorOf s).z)).normalize

/-- Embedding of `RTFusionRTQF::update` under `USE_SLERP`
(RTFusionRTQF.cpp lines 111-139 and 156): when compass or accel is
enabled, compute the rotation delta, angle, unit vector and
partial-rotation quaternion and multiply it onto `m_stateQ`; always
finish with `m_stateQ.normalize()`. -/
noncomputable def updateSlerp (s : FusionState) : FusionState :=
  let s1 :=
    if s.enableCompass || s.enableAccel then
      { s with rotationDelta := rotationDeltaOf s,
               rotationUnitVector := rotationUnitVectorOf s,
               rotationPower := rotationPowerOf s,
               stateQ := s.stateQ.mul (rotationPowerOf s) }
    else s
  { s1 with stateQ := s1.stateQ.normalize }

/-- Embedding of `RTFusionRTQF::update` without `USE_SLERP`
(RTFusionRTQF.cpp lines 141-156): `m_stateQError` is
`m_measuredQPose - m_stateQ` when compass or accel is enabled, else the
zero quaternion; then `m_stateQ += m_stateQError * (qt / (qt + m_R))`
with `qt = m_Q * m_timeDelta`, and finally `m_stateQ.normalize()`. -/
noncomputable def updateLinear (s : FusionState) : FusionState :=
  let sErr := if s.enableCompass || s.enableAccel
    then s.measuredQPose.sub s.stateQ else RTQuaternion.zero
  let qt := s.Q * s.timeDelta
  let sq := s.stateQ.add (sErr.smul (qt / (qt + s.R)))
  { s with stateQError := sErr, stateQ := sq.normalize }

/-- Embedding of `RTFusionRTQF::update`: the build flag `USE_SLERP`
selects between the two mutually exclusive correction strategies (spec
section 4.3). -/
noncomputable def update (s : FusionState) : FusionState :=
  if s.useSlerp then updateSlerp s else updateLinear s

/-- The elapsed time the steady-state branch computes
(RTFusionRTQF.cpp line 186):
`m_timeDelta = (RTFLOAT)(data.timestamp - m_lastFusionTime) / 1000000`. -/
noncomputable def timeDeltaOf (s : FusionState) (data : RTIMU_DATA) : ℝ :=
  ((data.timestamp - s.lastFusionTime : ℤ) : ℝ) / 1000000

/-- The tail of `newIMUData` (RTFusionRTQF.cpp lines 207-210): mark both
outputs valid on the caller record and copy the fused pose and quaternion
into it. -/
def writeOutputs (s : FusionState) (d : RTIMU_DATA) : RTIMU_DATA :=
  { d with fusionPoseValid := true, fusionQPoseValid := true,
           fusionPose := s.fusionPose, fusionQPose := s.fusionQPose }

/-- The unconditional preamble of `newIMUData` (RTFusionRTQF.cpp lines
161-173): the sample counter increments (twice when the debug branch runs,
because the argument `m_sampleNumber++` of the logging macro `HAL_INFO2`
is evaluated; modelled from the spec: `RTIMUHal.h` defines the logging
macros as printf wrappers, so arguments are evaluated and the sink itself
is external, spec section 6), after which `m_sampleNumber++` runs
unconditionally; then the raw inputs are stored, the gyro zeroed when
disabled. -/
def preambleState (s : FusionState) (data : RTIMU_DATA) : FusionState :=
  { s with
    sampleNumber := (if s.debug then s.sampleNumber + 1 else s.sampleNumber) + 1,
    gyro := if s.enableGyro then data.gyro else RTVector3.zero,
    accel := data.accel, compass := data.compass,
    compassValid := data.compassValid }

/-- Embedding of `RTFusionRTQF::newIMUData` (RTFusionRTQF.cpp lines
159-211).  Returns the new filter state and the (possibly mutated) caller
record.  After the preamble, the first call bootstraps; later calls set
`m_timeDelta` and `m_lastFusionTime` and only then return early when
`m_timeDelta <= 0`, leaving the caller record untouched. -/
noncomputable def newIMUData (L : PoseLib) (s0 : FusionState)
    (data : RTIMU_DATA) (declination : ℝ) : FusionState × RTIMU_DATA :=
  let s3 := preambleState s0 data
  if s3.firstTime then
    let s4 := { s3 with lastFusionTime := data.timestamp }
    let s5 := calculatePose L s4 s4.accel s4.compass declination
    let s6 := { s5 with Fk := s5.Fk.fill 0 }
    let s7 := { s6 with stateQ := RTQuaternion.fromEuler s6.measuredPose }
    let s8 := { s7 with fusionQPose := s7.stateQ, fusionPose := s7.measuredPose,
                        firstTime := false }
    (s8, writeOutputs s8 data)
  else
    let s4 := { s3 with timeDelta := timeDeltaOf s3 data,
                        lastFusionTime := data.timestamp }
    if s4.timeDelta ≤ 0 then
      (s4, data)
    else
      let s5 := calculatePose L s4 data.accel data.compass declination
      let s6 := predict s5
      let s7 := update s6
      let s8 := { s7 with fusionPose := L.toEulerFn s7.stateQ,
                          fusionQPose := s7.stateQ }
      (s8, writeOutputs s8 data)

/-- Embedding of `RTFusionRTQF::reset` (RTFusionRTQF.cpp lines 61-72). -/
noncomputable def reset (s : FusionState) : FusionState :=
  { s with firstTime := true,
           fusionPose := RTVector3.zero,
           fusionQPose := RTQuaternion.fromEuler RTVector3.zero,
           gyro := RTVector3.zero,
           accel := RTVector3.zero,
           compass := RTVector3.zero,
           measuredPose := RTVector3.zero,
           measuredQPose := RTQuaternion.fromEuler RTVector3.zero,
           sampleNumber := 0 }

/-- A call is completed (not discarded) when it is the first sample or the
computed time delta is strictly positive (spec sections 4.4 and 7). -/
def Accepts (s : FusionState) (data : RTIMU_DATA) : Prop :=
  s.firstTime = true ∨ 0 < timeDeltaOf s data

/-- The transition-matrix pattern the claim describes: half of each gyro
component in the twelve off-diagonal skew-symmetric quaternion-derivative
positions, zero on the diagonal. -/
noncomputable def fkPattern (g : RTVector3) : Mat4 :=
  ⟨0, -(g.x / 2), -(g.y / 2), -(g.z / 2),
   g.x / 2, 0, g.z / 2, -(g.y / 2),
   g.y / 2, -(g.z / 2), 0, g.x / 2,
   g.z / 2, g.y / 2, -(g.x / 2), 0⟩

/-- The state quaternion the update step computes just before its final
`m_stateQ.normalize()` call, in either correction mode. -/
noncomputable def preNormalizeOf (s : FusionState) : RTQuaternion :=
  if s.useSlerp then
    (if s.enableCompass || s.enableAccel
      then s.stateQ.mul (rotationPowerOf s) else s.stateQ)
  else
    s.stateQ.add ((if s.enableCompass || s.enableAccel
        then s.measuredQPose.sub s.stateQ else RTQuaternion.zero).smul
      ((s.Q * s.timeDelta) / (s.Q * s.timeDelta + s.R)))

/-- Trivial pose library used by concrete evaluations: both Euler
computations return the zero vector (any pure function is a valid model,
spec section 9). -/
def trivialLib : PoseLib := ⟨fun _ _ _ _ _ _ _ => ⟨0, 0, 0⟩, fun _ => ⟨0, 0, 0⟩⟩

/-- Concrete filter state (linear mode, all sources enabled, debug off,
constructor gains) used by the concrete evaluations. -/
def baseState : FusionState where
  firstTime := false
  stateQ := ⟨1, 0, 0, 0⟩
  fusionPose := ⟨0, 0, 0⟩
  fusionQPose := ⟨1, 0, 0, 0⟩
  measuredPose := ⟨0, 0, 0⟩
  measuredQPose := ⟨1, 0, 0, 0⟩
  gyro := ⟨0, 0, 0⟩
  accel := ⟨0, 0, 0⟩
  compass := ⟨0, 0, 0⟩
  compassValid := true
  timeDelta := 0
  lastFusionTime := 0
  sampleNumber := 0
  Fk := Mat4.zeroMat
  stateQError := ⟨0, 0, 0, 0⟩
  rotationDelta := ⟨0, 0, 0, 0⟩
  rotationPower := ⟨0, 0, 0, 0⟩
  rotationUnitVector := ⟨0, 0, 0⟩
  debug := false
  enableGyro := true
  enableAccel := true
  enableCompass := true
  useSlerp := false
  slerpPower := 0.02
  Q := 0.001
  R := 0.0005

/-- Concrete sample record with timestamp 100 microseconds. -/
def baseData : RTIMU_DATA where
  timestamp := 100
  gyro := ⟨0, 0, 0⟩
  accel := ⟨0, 0, 0⟩
  compass := ⟨0, 0, 0⟩
  compassValid := true
  fusionPoseValid := false
  fusionQPoseValid := false
  fusionPose := ⟨0, 0, 0⟩
  fusionQPose := ⟨1, 0, 0, 0⟩

/-- The state after one accepted call on `baseState` with `baseData`. -/
noncomputable def afterFirstCall : FusionState :=
  (newIMUData trivialLib baseState baseData 0).1

/-- Stale-sample state for the C1 and C10 witnesses: `baseState` whose
time base already equals the timestamp of `baseData`. -/
def staleState : FusionState := { baseState with lastFusionTime := 100 }

/-- First-call state for the C2 and C6 witnesses. -/
def firstState : FusionState := { baseState with firstTime := true }

/-- Concrete state for the C3 witness: zero matrix, gyro (2, 4, 6),
time delta 1. -/
def predictState : FusionState :=
  { baseState with gyro := ⟨2, 4, 6⟩, timeDelta := 1 }

/-- Concrete state for the C4 witness: linear mode, `Q = 0`. -/
def linearZeroQState : FusionState :=
  { baseState with Q := 0, measuredQPose := ⟨0, 1, 0, 0⟩, timeDelta := 1 }

/-- Concrete state for the C7 counterexample: linear mode, accel disabled,
compass enabled, measured pose orthogonal to the state. -/
def accelOffState : FusionState :=
  { baseState with
    enableAccel := false, enableCompass := true,
    measuredQPose := ⟨0, 1, 0, 0⟩, Q := 1, R := 1, timeDelta := 1 }

/-- Concrete state for the C7 amended witness: both sources disabled. -/
def bothOffState : FusionState :=
  { baseState with enableAccel := false, enableCompass := false }

/-- Concrete state for the C5 witness: slerp mode, `slerpPower = 1`,
measured pose orthogonal to the state. -/
def slerpOneState : FusionState :=
  { baseState with useSlerp := true, slerpPower := 1, measuredQPose := ⟨0, 1, 0, 0⟩ }

namespace RTQuaternion

lemma normSq_nonneg (q : RTQuaternion) : 0 ≤ q.normSq := by
  unfold normSq; positivity

lemma normSq_eq_zero {q : RTQuaternion} (h : q.normSq = 0) : q = zero := by
  obtain ⟨a, b, c, d⟩ := q
  simp only [normSq] at h
  have ha : a ^ 2 = 0 := by nlinarith [sq_nonneg a, sq_nonneg b, sq_nonneg c, sq_nonneg d]
  have hb : b ^ 2 = 0 := by nlinarith [sq_nonneg a, sq_nonneg b, sq_nonneg c, sq_nonneg d]
  have hc : c ^ 2 = 0 := by nlinarith [sq_nonneg a, sq_nonneg b, sq_nonneg c, sq_nonneg d]
  have hd : d ^ 2 = 0 := by nlinarith [sq_nonneg a, sq_nonneg b, sq_nonneg c, sq_nonneg d]
  simp only [zero, mk.injEq]
  exact ⟨pow_eq_zero_iff two_ne_zero |>.mp ha, pow_eq_zero_iff two_ne_zero |>.mp hb,
    pow_eq_zero_iff two_ne_zero |>.mp hc, pow_eq_zero_iff two_ne_zero |>.mp hd⟩

lemma normSq_smul (q : RTQuaternion) (c : ℝ) : (q.smul c).normSq = c ^ 2 * q.normSq := by
  obtain ⟨a, b, e, d⟩ := q
  simp only [smul, normSq]
  ring

lemma normSq_normalize {q : RTQuaternion} (h : q.normSq ≠ 0) :
    q.normalize.normSq = 1 := by
  have h0 : 0 ≤ q.normSq := normSq_nonneg q
  rw [normalize, normSq_smul, inv_pow, Real.sq_sqrt h0]
  exact inv_mul_cancel₀ h

lemma smul_one (q : RTQuaternion) : q.smul 1 = q := by
  obtain ⟨a, b, c, d⟩ := q
  simp [smul]

lemma normalize_of_normSq_one {q : RTQuaternion} (h : q.normSq = 1) :
    q.normalize = q := by
  rw [normalize, h, Real.sqrt_one, inv_one, smul_one]

lemma normalize_zero : (zero : RTQuaternion).normalize = zero := by
  simp [normalize, smul, zero]

lemma normSq_normalize_of_ne_zero {q : RTQuaternion}
    (h : q.normalize ≠ zero) : q.normalize.normSq = 1 := by
  by_cases h0 : q.normSq = 0
  · exact absurd (by rw [normSq_eq_zero h0, normalize_zero]) h
  · exact normSq_normalize h0

lemma normSq_conjugate (q : RTQuaternion) : q.conjugate.normSq = q.normSq := by
  obtain ⟨a, b, c, d⟩ := q
  simp only [conjugate, normSq]
  ring

lemma normSq_mul (p q : RTQuaternion) : (p.mul q).normSq = p.normSq * q.normSq := by
  obtain ⟨a, b, c, d⟩ := p
  obtain ⟨e, f, g, k⟩ := q
  simp only [mul, normSq]
  ring

lemma mul_assoc3 (p q r : RTQuaternion) : (p.mul q).mul r = p.mul (q.mul r) := by
  obtain ⟨a, b, c, d⟩ := p
  obtain ⟨e, f, g, k⟩ := q
  obtain ⟨l, u, v, w⟩ := r
  simp only [mul, mk.injEq]
  refine ⟨by ring, by ring, by ring, by ring⟩

lemma mul_conjugate_self (q : RTQuaternion) :
    q.mul q.conjugate = ⟨q.normSq, 0, 0, 0⟩ := by
  obtain ⟨a, b, c, d⟩ := q
  simp only [mul, conjugate, normSq, mk.injEq]
  refine ⟨by ring, by ring, by ring, by ring⟩

lemma one_mul_q (q : RTQuaternion) : (⟨1, 0, 0, 0⟩ : RTQuaternion).mul q = q := by
  obtain ⟨a, b, c, d⟩ := q
  simp only [mul, mk.injEq]
  refine ⟨by ring, by ring, by ring, by ring⟩

lemma mul_one_q (q : RTQuaternion) : q.mul ⟨1, 0, 0, 0⟩ = q := by
  obtain ⟨a, b, c, d⟩ := q
  simp only [mul, mk.injEq]
  refine ⟨by ring, by ring, by ring, by ring⟩

lemma mul_smul_right (p q : RTQuaternion) (c : ℝ) :
    p.mul (q.smul c) = (p.mul q).smul c := by
  obtain ⟨a, b, e, d⟩ := p
  obtain ⟨f, g, k, l⟩ := q
  simp only [mul, smul, mk.injEq]
  refine ⟨by ring, by ring, by ring, by ring⟩

lemma smul_zero_q (q : RTQuaternion) : q.smul 0 = zero := by
  simp [smul, zero]

lemma add_zero_q (q : RTQuaternion) : q.add zero = q := by
  obtain ⟨a, b, c, d⟩ := q
  simp [add, zero]

lemma sum_of_squares_factor (a b c : ℝ)
    (h1 : Real.sin a ^ 2 + Real.cos a ^ 2 = 1)
    (h2 : Real.sin b ^ 2 + Real.cos b ^ 2 = 1)
    (h3 : Real.sin c ^ 2 + Real.cos c ^ 2 = 1) :
    (Real.cos a * Real.cos b * Real.cos c + Real.sin a * Real.sin b * Real.sin c) ^ 2 +
      (Real.sin a * Real.cos b * Real.cos c - Real.cos a * Real.sin b * Real.sin c) ^ 2 +
      (Real.cos a * Real.sin b * Real.cos c + Real.sin a * Real.cos b * Real.sin c) ^ 2 +
      (Real.cos a * Real.cos b * Real.sin c - Real.sin a * Real.sin b * Real.cos c) ^ 2 = 1 := by
  have key :
      (Real.cos a * Real.cos b * Real.cos c + Real.sin a * Real.sin b * Real.sin c) ^ 2 +
        (Real.sin a * Real.cos b * Real.cos c - Real.cos a * Real.sin b * Real.sin c) ^ 2 +
        (Real.cos a * Real.sin b * Real.cos c + Real.sin a * Real.cos b * Real.sin c) ^ 2 +
        (Real.cos a * Real.cos b * Real.sin c - Real.sin a * Real.sin b * Real.cos c) ^ 2 =
      (Real.sin a ^ 2 + Real.cos a ^ 2) * (Real.sin b ^ 2 + Real.cos b ^ 2) *
        (Real.sin c ^ 2 + Real.cos c ^ 2) := by ring
  rw [key, h1, h2, h3]
  norm_num

/-- `fromEuler` always yields a unit quaternion: its components are the
half-angle products whose squares sum to the product of three Pythagorean
identities. -/
lemma normSq_fromEuler (v : RTVector3) : (fromEuler v).normSq = 1 := by
  simp only [fromEuler, normSq]
  exact sum_of_squares_factor (v.x / 2) (v.y / 2) (v.z / 2)
    (Real.sin_sq_add_cos_sq (v.x / 2)) (Real.sin_sq_add_cos_sq (v.y / 2))
    (Real.sin_sq_add_cos_sq (v.z / 2))

end RTQuaternion

@[simp] lemma preamble_firstTime (s : FusionState) (d : RTIMU_DATA) :
    (preambleState s d).firstTime = s.firstTime := rfl

@[simp] lemma preamble_stateQ (s : FusionState) (d : RTIMU_DATA) :
    (preambleState s d).stateQ = s.stateQ := rfl

@[simp] lemma preamble_fusionPose (s : FusionState) (d : RTIMU_DATA) :
    (preambleState s d).fusionPose = s.fusionPose := rfl

@[simp] lemma preamble_fusionQPose (s : FusionState) (d : RTIMU_DATA) :
    (preambleState s d).fusionQPose = s.fusionQPose := rfl

@[simp] lemma preamble_measuredPose (s : FusionState) (d : RTIMU_DATA) :
    (preambleState s d).measuredPose = s.measuredPose := rfl

@[simp] lemma preamble_measuredQPose (s : FusionState) (d : RTIMU_DATA) :
    (preambleState s d).measuredQPose = s.measuredQPose := rfl

@[simp] lemma preamble_gyro (s : FusionState) (d : RTIMU_DATA) :
    (preambleState s d).gyro = if s.enableGyro then d.gyro else RTVector3.zero := rfl

@[simp] lemma preamble_accel (s : FusionState) (d : RTIMU_DATA) :
    (preambleState s d).accel = d.accel := rfl

@[simp] lemma preamble_compass (s : FusionState) (d : RTIMU_DATA) :
    (preambleState s d).compass = d.compass := rfl

@[simp] lemma preamble_compassValid (s : FusionState) (d : RTIMU_DATA) :
    (preambleState s d).compassValid = d.compassValid := rfl

@[simp] lemma preamble_timeDelta (s : FusionState) (d : RTIMU_DATA) :
    (preambleState s d).timeDelta = s.timeDelta := rfl

@[simp] lemma preamble_lastFusionTime (s : FusionState) (d : RTIMU_DATA) :
    (preambleState s d).lastFusionTime = s.lastFusionTime := rfl

@[simp] lemma preamble_sampleNumber (s : FusionState) (d : RTIMU_DATA) :
    (preambleState s d).sampleNumber =
      (if s.debug then s.sampleNumber + 1 else s.sampleNumber) + 1 := rfl

@[simp] lemma preamble_Fk (s : FusionState) (d : RTIMU_DATA) :
    (preambleState s d).Fk = s.Fk := rfl

@[simp] lemma preamble_stateQError (s : FusionState) (d : RTIMU_DATA) :
    (preambleState s d).stateQError = s.stateQError := rfl

@[simp] lemma preamble_rotationDelta (s : FusionState) (d : RTIMU_DATA) :
    (preambleState s d).rotationDelta = s.rotationDelta := rfl

@[simp] lemma preamble_rotationPower (s : FusionState) (d : RTIMU_DATA) :
    (preambleState s d).rotationPower = s.rotationPower := rfl

@[simp] lemma preamble_rotationUnitVector (s : FusionState) (d : RTIMU_DATA) :
    (preambleState s d).rotationUnitVector = s.rotationUnitVector := rfl

@[simp] lemma preamble_debug (s : FusionState) (d : RTIMU_DATA) :
    (preambleState s d).debug = s.debug := rfl

@[simp] lemma preamble_enableGyro (s : FusionState) (d : RTIMU_DATA) :
    (preambleState s d).enableGyro = s.enableGyro := rfl

@[simp] lemma preamble_enableAccel (s : FusionState) (d : RTIMU_DATA) :
    (preambleState s d).enableAccel = s.enableAccel := rfl

@[simp] lemma preamble_enableCompass (s : FusionState) (d : RTIMU_DATA) :
    (preambleState s d).enableCompass = s.enableCompass := rfl

@[simp] lemma preamble_useSlerp (s : FusionState) (d : RTIMU_DATA) :
    (preambleState s d).useSlerp = s.useSlerp := rfl

@[simp] lemma preamble_slerpPower (s : FusionState) (d : RTIMU_DATA) :
    (preambleState s d).slerpPower = s.slerpPower := rfl

@[simp] lemma preamble_Q (s : FusionState) (d : RTIMU_DATA) :
    (preambleState s d).Q = s.Q := rfl

@[simp] lemma preamble_R (s : FusionState) (d : RTIMU_DATA) :
    (preambleState s d).R = s.R := rfl

@[simp] lemma timeDeltaOf_preamble (s : FusionState) (d d2 : RTIMU_DATA) :
    timeDeltaOf (preambleState s d) d2 = timeDeltaOf s d2 := rfl

@[simp] lemma timeDeltaOf_set_debug (s : FusionState) (b : Bool) (d : RTIMU_DATA) :
    timeDeltaOf { s with debug := b } d = timeDeltaOf s d := rfl

@[simp] lemma setVal_01 (m : Mat4) (v : ℝ) : m.setVal 0 1 v = { m with m01 := v } := rfl

@[simp] lemma setVal_02 (m : Mat4) (v : ℝ) : m.setVal 0 2 v = { m with m02 := v } := rfl

@[simp] lemma setVal_03 (m : Mat4) (v : ℝ) : m.setVal 0 3 v = { m with m03 := v } := rfl

@[simp] lemma setVal_10 (m : Mat4) (v : ℝ) : m.setVal 1 0 v = { m with m10 := v } := rfl

@[simp] lemma setVal_12 (m : Mat4) (v : ℝ) : m.setVal 1 2 v = { m with m12 := v } := rfl

@[simp] lemma setVal_13 (m : Mat4) (v : ℝ) : m.setVal 1 3 v = { m with m13 := v } := rfl

@[simp] lemma setVal_20 (m : Mat4) (v : ℝ) : m.setVal 2 0 v = { m with m20 := v } := rfl

@[simp] lemma setVal_21 (m : Mat4) (v : ℝ) : m.setVal 2 1 v = { m with m21 := v } := rfl

@[simp] lemma setVal_23 (m : Mat4) (v : ℝ) : m.setVal 2 3 v = { m with m23 := v } := rfl

@[simp] lemma setVal_30 (m : Mat4) (v : ℝ) : m.setVal 3 0 v = { m with m30 := v } := rfl

@[simp] lemma setVal_31 (m : Mat4) (v : ℝ) : m.setVal 3 1 v = { m with m31 := v } := rfl

@[simp] lemma setVal_32 (m : Mat4) (v : ℝ) : m.setVal 3 2 v = { m with m32 := v } := rfl

@[simp] lemma calculatePose_firstTime (L : PoseLib) (s : FusionState)
    (a m : RTVector3) (d : ℝ) : (calculatePose L s a m d).firstTime = s.firstTime := rfl

@[simp] lemma calculatePose_debug (L : PoseLib) (s : FusionState)
    (a m : RTVector3) (d : ℝ) : (calculatePose L s a m d).debug = s.debug := rfl

@[simp] lemma calculatePose_sampleNumber (L : PoseLib) (s : FusionState)
    (a m : RTVector3) (d : ℝ) : (calculatePose L s a m d).sampleNumber = s.sampleNumber := rfl

@[simp] lemma calculatePose_lastFusionTime (L : PoseLib) (s : FusionState)
    (a m : RTVector3) (d : ℝ) : (calculatePose L s a m d).lastFusionTime = s.lastFusionTime := rfl

@[simp] lemma calculatePose_timeDelta (L : PoseLib) (s : FusionState)
    (a m : RTVector3) (d : ℝ) : (calculatePose L s a m d).timeDelta = s.timeDelta := rfl

@[simp] lemma calculatePose_stateQ (L : PoseLib) (s : FusionState)
    (a m : RTVector3) (d : ℝ) : (calculatePose L s a m d).stateQ = s.stateQ := rfl

@[simp] lemma predict_firstTime (s : FusionState) : (predict s).firstTime = s.firstTime := rfl

@[simp] lemma predict_debug (s : FusionState) : (predict s).debug = s.debug := rfl

@[simp] lemma predict_sampleNumber (s : FusionState) :
    (predict s).sampleNumber = s.sampleNumber := rfl

@[simp] lemma predict_lastFusionTime (s : FusionState) :
    (predict s).lastFusionTime = s.lastFusionTime := rfl

@[simp] lemma predict_timeDelta (s : FusionState) : (predict s).timeDelta = s.timeDelta := rfl

@[simp] lemma predict_measuredQPose (s : FusionState) :
    (predict s).measuredQPose = s.measuredQPose := rfl

@[simp] lemma predict_measuredPose (s : FusionState) :
    (predict s).measuredPose = s.measuredPose := rfl

@[simp] lemma update_firstTime (s : FusionState) : (update s).firstTime = s.firstTime := by
  unfold update updateSlerp updateLinear
  split_ifs <;> rfl

@[simp] lemma update_debug (s : FusionState) : (update s).debug = s.debug := by
  unfold update updateSlerp updateLinear
  split_ifs <;> rfl

@[simp] lemma update_sampleNumber (s : FusionState) :
    (update s).sampleNumber = s.sampleNumber := by
  unfold update updateSlerp updateLinear
  split_ifs <;> rfl

@[simp] lemma update_lastFusionTime (s : FusionState) :
    (update s).lastFusionTime = s.lastFusionTime := by
  unfold update updateSlerp updateLinear
  split_ifs <;> rfl

@[simp] lemma update_timeDelta (s : FusionState) : (update s).timeDelta = s.timeDelta := by
  unfold update updateSlerp updateLinear
  split_ifs <;> rfl

/-- Both update strategies end with `m_stateQ.normalize()`: the resulting
state quaternion is always the normalization of the pre-normalization
value. -/
lemma update_stateQ_eq (s : FusionState) :
    (update s).stateQ = (preNormalizeOf s).normalize := by
  unfold update updateSlerp updateLinear preNormalizeOf
  split_ifs <;> rfl

lemma newIMUData_rejected_eq (L : PoseLib) (s : FusionState) (data : RTIMU_DATA)
    (declination : ℝ) (hft : s.firstTime = false) (hdt : timeDeltaOf s data ≤ 0) :
    newIMUData L s data declination =
      ({ preambleState s data with
          timeDelta := timeDeltaOf s data,
          lastFusionTime := data.timestamp }, data) := by
  simp [newIMUData, hft, hdt]

lemma newIMUData_first_eq (L : PoseLib) (s : FusionState) (data : RTIMU_DATA)
    (declination : ℝ) (hft : s.firstTime = true) :
    newIMUData L s data declination =
      (let mp := L.measuredPoseFn s.enableAccel s.enableCompass data.compassValid
          s.fusionPose data.accel data.compass declination
       let q := RTQuaternion.fromEuler mp
       let s8 := { preambleState s data with
          lastFusionTime := data.timestamp,
          measuredPose := mp, measuredQPose := q,
          Fk := Mat4.zeroMat,
          stateQ := q, fusionQPose := q, fusionPose := mp,
          firstTime := false }
       (s8, writeOutputs s8 data)) := by
  simp [newIMUData, calculatePose, Mat4.fill, Mat4.zeroMat, hft]

lemma newIMUData_accepted_eq (L : PoseLib) (s : FusionState) (data : RTIMU_DATA)
    (declination : ℝ) (hft : s.firstTime = false)
    (hdt : ¬ timeDeltaOf s data ≤ 0) :
    newIMUData L s data declination =
      (let s7 := update (predict (calculatePose L
          { preambleState s data with
              timeDelta := timeDeltaOf s data,
              lastFusionTime := data.timestamp }
          data.accel data.compass declination))
       let s8 := { s7 with fusionPose := L.toEulerFn s7.stateQ,
                           fusionQPose := s7.stateQ }
       (s8, writeOutputs s8 data)) := by
  simp [newIMUData, hft, hdt]

/-- Trivial pose library used by concrete evaluations: both Euler
computations return the zero vector (any pure function is a valid model,
spec section 9). -/
lemma timeDeltaOf_base_pos : ¬ timeDeltaOf baseState baseData ≤ 0 := by
  norm_num [timeDeltaOf, baseState, baseData]

lemma afterFirstCall_sampleNumber : afterFirstCall.sampleNumber = 1 := by
  rw [afterFirstCall,
    newIMUData_accepted_eq trivialLib baseState baseData 0 rfl timeDeltaOf_base_pos]
  simp [baseState]

lemma afterFirstCall_lastFusionTime : afterFirstCall.lastFusionTime = 100 := by
  rw [afterFirstCall,
    newIMUData_accepted_eq trivialLib baseState baseData 0 rfl timeDeltaOf_base_pos]
  simp [baseData]

lemma afterFirstCall_firstTime : afterFirstCall.firstTime = false := by
  rw [afterFirstCall,
    newIMUData_accepted_eq trivialLib baseState baseData 0 rfl timeDeltaOf_base_pos]
  simp [baseState]

lemma afterFirstCall_debug : afterFirstCall.debug = false := by
  rw [afterFirstCall,
    newIMUData_accepted_eq trivialLib baseState baseData 0 rfl timeDeltaOf_base_pos]
  simp [baseState]

lemma timeDeltaOf_afterFirstCall : timeDeltaOf afterFirstCall baseData ≤ 0 := by
  simp [timeDeltaOf, afterFirstCall_lastFusionTime, baseData]

/-- C1, counterexample: ingesting `baseData` a second time with the
identical timestamp does NOT leave the filter state exactly as it was
after the first call: the sample counter changes, refuting the claimed
atomic discard with no state mutation. -/
theorem rejected_sample_still_mutates_state :
    ((newIMUData trivialLib afterFirstCall baseData 0).1).sampleNumber ≠
      afterFirstCall.sampleNumber := by
  rw [newIMUData_rejected_eq trivialLib afterFirstCall baseData 0
    afterFirstCall_firstTime timeDeltaOf_afterFirstCall]
  simp [afterFirstCall_debug, afterFirstCall_sampleNumber]

/-- C1 (amended): a non-first sample whose `timeDelta` is not strictly
positive is discarded as far as the orientation estimate is concerned:
`stateQ`, `fusionPose`, `fusionQPose`, `measuredPose`, `measuredQPose`
keep their previous values and the caller record is returned untouched
(no output update, no validity flags set).  Bookkeeping fields
(`sampleNumber`, raw inputs, `lastFusionTime`, `timeDelta`) are however
mutated before the rejection check (see the C10 theorem). -/
theorem rejected_sample_preserves_estimates_and_outputs (L : PoseLib)
    (s : FusionState) (data : RTIMU_DATA) (declination : ℝ)
    (hft : s.firstTime = false) (hdt : timeDeltaOf s data ≤ 0) :
    (newIMUData L s data declination).1.stateQ = s.stateQ ∧
    (newIMUData L s data declination).1.fusionPose = s.fusionPose ∧
    (newIMUData L s data declination).1.fusionQPose = s.fusionQPose ∧
    (newIMUData L s data declination).1.measuredPose = s.measuredPose ∧
    (newIMUData L s data declination).1.measuredQPose = s.measuredQPose ∧
    (newIMUData L s data declination).2 = data := by
  rw [newIMUData_rejected_eq L s data declination hft hdt]
  simp

/-- Stale-sample state for the C1 and C10 witnesses: `baseState` whose
time base already equals the timestamp of `baseData`. -/
lemma staleState_timeDelta_nonpos : timeDeltaOf staleState baseData ≤ 0 := by
  norm_num [timeDeltaOf, staleState, baseState, baseData]

theorem rejected_sample_preserves_estimates_and_outputs_witness :
    staleState.firstTime = false ∧ timeDeltaOf staleState baseData ≤ 0 ∧
    ((newIMUData trivialLib staleState baseData 0).1.stateQ = staleState.stateQ ∧
     (newIMUData trivialLib staleState baseData 0).1.fusionPose = staleState.fusionPose ∧
     (newIMUData trivialLib staleState baseData 0).1.fusionQPose = staleState.fusionQPose ∧
     (newIMUData trivialLib staleState baseData 0).1.measuredPose = staleState.measuredPose ∧
     (newIMUData trivialLib staleState baseData 0).1.measuredQPose = staleState.measuredQPose ∧
     (newIMUData trivialLib staleState baseData 0).2 = baseData) :=
  ⟨rfl, staleState_timeDelta_nonpos,
    rejected_sample_preserves_estimates_and_outputs trivialLib staleState baseData 0
      rfl staleState_timeDelta_nonpos⟩

/-- C10: a non-first sample rejected because `timeDelta <= 0` has
nevertheless already overwritten the stored raw inputs (gyro possibly
zeroed by the enable flag, accel, compass, compass validity), incremented
the sample counter (twice when debugging), and advanced `lastFusionTime`
to the rejected timestamp, so the next time delta is computed relative to
the rejected sample; only the orientation estimates and the caller record
are left unchanged. -/
theorem rejected_sample_frame_effects (L : PoseLib) (s : FusionState)
    (data data2 : RTIMU_DATA) (declination : ℝ)
    (hft : s.firstTime = false) (hdt : timeDeltaOf s data ≤ 0) :
    (newIMUData L s data declination).1.gyro =
        (if s.enableGyro then data.gyro else RTVector3.zero) ∧
    (newIMUData L s data declination).1.accel = data.accel ∧
    (newIMUData L s data declination).1.compass = data.compass ∧
    (newIMUData L s data declination).1.compassValid = data.compassValid ∧
    (newIMUData L s data declination).1.sampleNumber =
        s.sampleNumber + (if s.debug then 2 else 1) ∧
    (newIMUData L s data declination).1.lastFusionTime = data.timestamp ∧
    timeDeltaOf (newIMUData L s data declination).1 data2 =
        ((data2.timestamp - data.timestamp : ℤ) : ℝ) / 1000000 ∧
    (newIMUData L s data declination).1.stateQ = s.stateQ ∧
    (newIMUData L s data declination).1.fusionPose = s.fusionPose ∧
    (newIMUData L s data declination).1.fusionQPose = s.fusionQPose ∧
    (newIMUData L s data declination).1.measuredPose = s.measuredPose ∧
    (newIMUData L s data declination).1.measuredQPose = s.measuredQPose ∧
    (newIMUData L s data declination).2 = data := by
  rw [newIMUData_rejected_eq L s data declination hft hdt]
  refine ⟨rfl, rfl, rfl, rfl, ?_, rfl, ?_, rfl, rfl, rfl, rfl, rfl, rfl⟩
  · by_cases hdbg : s.debug
    · simp [hdbg]
      ring
    · simp [hdbg]
  · simp [timeDeltaOf]

theorem rejected_sample_frame_effects_witness :
    staleState.firstTime = false ∧ timeDeltaOf staleState baseData ≤ 0 ∧
    ((newIMUData trivialLib staleState baseData 0).1.gyro =
        (if staleState.enableGyro then baseData.gyro else RTVector3.zero) ∧
     (newIMUData trivialLib staleState baseData 0).1.accel = baseData.accel ∧
     (newIMUData trivialLib staleState baseData 0).1.compass = baseData.compass ∧
     (newIMUData trivialLib staleState baseData 0).1.compassValid = baseData.compassValid ∧
     (newIMUData trivialLib staleState baseData 0).1.sampleNumber =
        staleState.sampleNumber + (if staleState.debug then 2 else 1) ∧
     (newIMUData trivialLib staleState baseData 0).1.lastFusionTime = baseData.timestamp ∧
     timeDeltaOf (newIMUData trivialLib staleState baseData 0).1 baseData =
        ((baseData.timestamp - baseData.timestamp : ℤ) : ℝ) / 1000000 ∧
     (newIMUData trivialLib staleState baseData 0).1.stateQ = staleState.stateQ ∧
     (newIMUData trivialLib staleState baseData 0).1.fusionPose = staleState.fusionPose ∧
     (newIMUData trivialLib staleState baseData 0).1.fusionQPose = staleState.fusionQPose ∧
     (newIMUData trivialLib staleState baseData 0).1.measuredPose = staleState.measuredPose ∧
     (newIMUData trivialLib staleState baseData 0).1.measuredQPose = staleState.measuredQPose ∧
     (newIMUData trivialLib staleState baseData 0).2 = baseData) :=
  ⟨rfl, staleState_timeDelta_nonpos,
    rejected_sample_frame_effects trivialLib staleState baseData baseData 0
      rfl staleState_timeDelta_nonpos⟩

lemma fromEuler_zero_vec : RTQuaternion.fromEuler ⟨0, 0, 0⟩ = ⟨1, 0, 0, 0⟩ := by
  simp [RTQuaternion.fromEuler]

/-- C2: after every completed (non-discarded) `newIMUData` call, in either
correction mode and for any enable flags, the state quaternion has unit
norm: the first sample sets it from Euler angles (a unit quaternion by
construction) and every later accepted sample ends `update()` with an
explicit renormalization.  The nonzero hypothesis excludes the degenerate
renormalization of an exactly zero quaternion, which the idealized
real-arithmetic normalize leaves at zero. -/
theorem stateQ_unit_norm_after_completed_ingest (L : PoseLib) (s : FusionState)
    (data : RTIMU_DATA) (declination : ℝ) (hacc : Accepts s data)
    (hnz : (newIMUData L s data declination).1.stateQ ≠ RTQuaternion.zero) :
    ((newIMUData L s data declination).1.stateQ).normSq = 1 := by
  by_cases hft : s.firstTime = true
  · rw [newIMUData_first_eq L s data declination hft]
    exact RTQuaternion.normSq_fromEuler _
  · have hft2 : s.firstTime = false := Bool.eq_false_iff.mpr hft
    have hdt : 0 < timeDeltaOf s data := hacc.resolve_left hft
    have hdt2 : ¬ timeDeltaOf s data ≤ 0 := not_le.mpr hdt
    rw [newIMUData_accepted_eq L s data declination hft2 hdt2] at hnz ⊢
    simp only [update_stateQ_eq] at hnz ⊢
    exact RTQuaternion.normSq_normalize_of_ne_zero hnz

/-- First-call state for the C2 and C6 witnesses. -/
theorem stateQ_unit_norm_after_completed_ingest_witness :
    Accepts firstState baseData ∧
    (newIMUData trivialLib firstState baseData 0).1.stateQ ≠ RTQuaternion.zero ∧
    ((newIMUData trivialLib firstState baseData 0).1.stateQ).normSq = 1 := by
  have hnz : (newIMUData trivialLib firstState baseData 0).1.stateQ ≠ RTQuaternion.zero := by
    rw [newIMUData_first_eq trivialLib firstState baseData 0 rfl]
    simp [trivialLib, fromEuler_zero_vec, RTQuaternion.zero]
  exact ⟨Or.inl rfl, hnz,
    stateQ_unit_norm_after_completed_ingest trivialLib firstState baseData 0
      (Or.inl rfl) hnz⟩

/-- C6: the very first `newIMUData` call records the timestamp as the time
base, zeroes the transition matrix, sets `stateQ` from the measured pose
computed from the accel/compass of this call and the declination (so `stateQ`
equals `measuredQPose`), publishes `fusionPose` equal to the measured
pose and `fusionQPose` equal to `stateQ` without running predict or
update, and sets both validity flags true on the caller record. -/
theorem first_sample_bootstrap (L : PoseLib) (s : FusionState)
    (data : RTIMU_DATA) (declination : ℝ) (hft : s.firstTime = true) :
    (newIMUData L s data declination).1.lastFusionTime = data.timestamp ∧
    (newIMUData L s data declination).1.Fk = Mat4.zeroMat ∧
    (newIMUData L s data declination).1.measuredPose =
      L.measuredPoseFn s.enableAccel s.enableCompass data.compassValid
        s.fusionPose data.accel data.compass declination ∧
    (newIMUData L s data declination).1.stateQ =
      RTQuaternion.fromEuler ((newIMUData L s data declination).1.measuredPose) ∧
    (newIMUData L s data declination).1.stateQ =
      (newIMUData L s data declination).1.measuredQPose ∧
    (newIMUData L s data declination).1.fusionPose =
      (newIMUData L s data declination).1.measuredPose ∧
    (newIMUData L s data declination).1.fusionQPose =
      (newIMUData L s data declination).1.stateQ ∧
    (newIMUData L s data declination).1.firstTime = false ∧
    (newIMUData L s data declination).2.fusionPoseValid = true ∧
    (newIMUData L s data declination).2.fusionQPoseValid = true ∧
    (newIMUData L s data declination).2.fusionPose =
      (newIMUData L s data declination).1.measuredPose ∧
    (newIMUData L s data declination).2.fusionQPose =
      (newIMUData L s data declination).1.stateQ := by
  rw [newIMUData_first_eq L s data declination hft]
  exact ⟨rfl, rfl, rfl, rfl, rfl, rfl, rfl, rfl, rfl, rfl, rfl, rfl⟩

theorem first_sample_bootstrap_witness :
    firstState.firstTime = true ∧
    ((newIMUData trivialLib firstState baseData 0).1.lastFusionTime = baseData.timestamp ∧
     (newIMUData trivialLib firstState baseData 0).1.Fk = Mat4.zeroMat ∧
     (newIMUData trivialLib firstState baseData 0).1.measuredPose =
       trivialLib.measuredPoseFn firstState.enableAccel firstState.enableCompass
         baseData.compassValid firstState.fusionPose baseData.accel baseData.compass 0 ∧
     (newIMUData trivialLib firstState baseData 0).1.stateQ =
       RTQuaternion.fromEuler ((newIMUData trivialLib firstState baseData 0).1.measuredPose) ∧
     (newIMUData trivialLib firstState baseData 0).1.stateQ =
       (newIMUData trivialLib firstState baseData 0).1.measuredQPose ∧
     (newIMUData trivialLib firstState baseData 0).1.fusionPose =
       (newIMUData trivialLib firstState baseData 0).1.measuredPose ∧
     (newIMUData trivialLib firstState baseData 0).1.fusionQPose =
       (newIMUData trivialLib firstState baseData 0).1.stateQ ∧
     (newIMUData trivialLib firstState baseData 0).1.firstTime = false ∧
     (newIMUData trivialLib firstState baseData 0).2.fusionPoseValid = true ∧
     (newIMUData trivialLib firstState baseData 0).2.fusionQPoseValid = true ∧
     (newIMUData trivialLib firstState baseData 0).2.fusionPose =
       (newIMUData trivialLib firstState baseData 0).1.measuredPose ∧
     (newIMUData trivialLib firstState baseData 0).2.fusionQPose =
       (newIMUData trivialLib firstState baseData 0).1.stateQ) :=
  ⟨rfl, first_sample_bootstrap trivialLib firstState baseData 0 rfl⟩

/-- C3: for every state whose transition-matrix diagonal is zero (which
holds for every state reached after the first call set `m_Fk.fill(0)`,
since `predict` only writes off-diagonal entries), `predict` rebuilds
`Fk` as the skew-symmetric half-gyro pattern and replaces `stateQ` with
`stateQ + (Fk * stateQ) * timeDelta`, exactly, with no renormalization. -/
theorem predict_builds_fk_and_integrates (s : FusionState)
    (h00 : s.Fk.m00 = 0) (h11 : s.Fk.m11 = 0)
    (h22 : s.Fk.m22 = 0) (h33 : s.Fk.m33 = 0) :
    (predict s).Fk = fkPattern s.gyro ∧
    (predict s).stateQ =
      s.stateQ.add (((fkPattern s.gyro).mulQ s.stateQ).smul s.timeDelta) := by
  have hfk : (predict s).Fk = fkPattern s.gyro := by
    simp [predict, fkPattern, h00, h11, h22, h33]
  refine ⟨hfk, ?_⟩
  have hshape : (predict s).stateQ =
      s.stateQ.add ((((predict s).Fk).mulQ s.stateQ).smul s.timeDelta) := rfl
  rw [hshape, hfk]

/-- Concrete state for the C3 witness: zero matrix, gyro (2, 4, 6),
time delta 1. -/
theorem predict_builds_fk_and_integrates_witness :
    predictState.Fk.m00 = 0 ∧ predictState.Fk.m11 = 0 ∧
    predictState.Fk.m22 = 0 ∧ predictState.Fk.m33 = 0 ∧
    ((predict predictState).Fk = fkPattern predictState.gyro ∧
     (predict predictState).stateQ =
       predictState.stateQ.add (((fkPattern predictState.gyro).mulQ
         predictState.stateQ).smul predictState.timeDelta)) :=
  ⟨rfl, rfl, rfl, rfl,
    predict_builds_fk_and_integrates predictState rfl rfl rfl rfl⟩

/-- C4: in linear complementary mode, with accel or compass enabled, the
update step produces the normalization of
`stateQ + (measuredQPose - stateQ) * (qt / (qt + R))` with
`qt = Q * timeDelta`, componentwise; and with `Q = 0` the blend factor is
zero, so the correction term moves `stateQ` by nothing (only the final
renormalization applies). -/
theorem linear_update_formula (s : FusionState) (hm : s.useSlerp = false)
    (he : (s.enableCompass || s.enableAccel) = true) :
    (update s).stateQ =
      (RTQuaternion.mk
        (s.stateQ.scalar + (s.measuredQPose.scalar - s.stateQ.scalar) *
          (s.Q * s.timeDelta / (s.Q * s.timeDelta + s.R)))
        (s.stateQ.x + (s.measuredQPose.x - s.stateQ.x) *
          (s.Q * s.timeDelta / (s.Q * s.timeDelta + s.R)))
        (s.stateQ.y + (s.measuredQPose.y - s.stateQ.y) *
          (s.Q * s.timeDelta / (s.Q * s.timeDelta + s.R)))
        (s.stateQ.z + (s.measuredQPose.z - s.stateQ.z) *
          (s.Q * s.timeDelta / (s.Q * s.timeDelta + s.R)))).normalize ∧
    (s.Q = 0 → (update s).stateQ = s.stateQ.normalize) := by
  have h1 : (update s).stateQ =
      ((s.stateQ.add ((s.measuredQPose.sub s.stateQ).smul
        (s.Q * s.timeDelta / (s.Q * s.timeDelta + s.R)))).normalize) := by
    rw [update_stateQ_eq]
    congr 1
    simp [preNormalizeOf, hm, he]
  constructor
  · rw [h1]
    congr 1
    ext <;> simp [RTQuaternion.add, RTQuaternion.sub, RTQuaternion.smul] <;> ring
  · intro hQ
    rw [h1, hQ]
    congr 1
    simp [RTQuaternion.add, RTQuaternion.sub, RTQuaternion.smul]

/-- Concrete state for the C4 witness: linear mode, `Q = 0`. -/
theorem linear_update_formula_witness :
    linearZeroQState.useSlerp = false ∧
    (linearZeroQState.enableCompass || linearZeroQState.enableAccel) = true ∧
    ((update linearZeroQState).stateQ =
      (RTQuaternion.mk
        (linearZeroQState.stateQ.scalar +
          (linearZeroQState.measuredQPose.scalar - linearZeroQState.stateQ.scalar) *
          (linearZeroQState.Q * linearZeroQState.timeDelta /
            (linearZeroQState.Q * linearZeroQState.timeDelta + linearZeroQState.R)))
        (linearZeroQState.stateQ.x +
          (linearZeroQState.measuredQPose.x - linearZeroQState.stateQ.x) *
          (linearZeroQState.Q * linearZeroQState.timeDelta /
            (linearZeroQState.Q * linearZeroQState.timeDelta + linearZeroQState.R)))
        (linearZeroQState.stateQ.y +
          (linearZeroQState.measuredQPose.y - linearZeroQState.stateQ.y) *
          (linearZeroQState.Q * linearZeroQState.timeDelta /
            (linearZeroQState.Q * linearZeroQState.timeDelta + linearZeroQState.R)))
        (linearZeroQState.stateQ.z +
          (linearZeroQState.measuredQPose.z - linearZeroQState.stateQ.z) *
          (linearZeroQState.Q * linearZeroQState.timeDelta /
            (linearZeroQState.Q * linearZeroQState.timeDelta + linearZeroQState.R)))).normalize ∧
     (linearZeroQState.Q = 0 → (update linearZeroQState).stateQ =
       linearZeroQState.stateQ.normalize)) :=
  ⟨rfl, rfl, linear_update_formula linearZeroQState rfl rfl⟩

/-- C7, counterexample: with the accelerometer disabled but the compass
still enabled, the update step does NOT skip the correction: flipping the
compass flag changes the resulting state quaternion, refuting the claim
that disabling the accelerometer alone yields pure gyro integration
regardless of the compass flag. -/
theorem accel_disabled_correction_still_runs :
    (update accelOffState).stateQ ≠
      (update { accelOffState with enableCompass := false }).stateQ := by
  have e1 : (update accelOffState).stateQ =
      RTQuaternion.normalize ⟨1 / 2, 1 / 2, 0, 0⟩ := by
    rw [update_stateQ_eq]
    congr 1
    simp [preNormalizeOf, accelOffState, baseState, RTQuaternion.add,
      RTQuaternion.sub, RTQuaternion.smul]
    norm_num
  have e2 : (update { accelOffState with enableCompass := false }).stateQ =
      (⟨1, 0, 0, 0⟩ : RTQuaternion) := by
    rw [update_stateQ_eq]
    have e2a : preNormalizeOf { accelOffState with enableCompass := false } =
        (⟨1, 0, 0, 0⟩ : RTQuaternion) := by
      simp [preNormalizeOf, accelOffState, baseState, RTQuaternion.add,
        RTQuaternion.smul, RTQuaternion.zero]
    rw [e2a]
    exact RTQuaternion.normalize_of_normSq_one (by norm_num [RTQuaternion.normSq])
  rw [e1, e2]
  intro h
  have hx := congrArg RTQuaternion.x h
  have e3 : RTQuaternion.normSq ⟨1 / 2, 1 / 2, 0, 0⟩ = (1 / 2 : ℝ) := by
    norm_num [RTQuaternion.normSq]
  simp only [RTQuaternion.normalize, e3, RTQuaternion.smul] at hx
  have hne : (Real.sqrt (1 / 2))⁻¹ * (1 / 2 : ℝ) ≠ 0 := by positivity
  exact hne hx

/-- C7 (amended): the update step skips the correction exactly when both
the accelerometer and the compass are disabled; in that case, in either
correction mode, the state quaternion is only renormalized (pure gyro
integration passthrough).  Disabling one source alone does not skip the
correction (see the counterexample). -/
theorem both_sources_disabled_skip_correction (s : FusionState)
    (hca : s.enableCompass = false) (hac : s.enableAccel = false) :
    (update s).stateQ = s.stateQ.normalize := by
  rw [update_stateQ_eq]
  congr 1
  by_cases hus : s.useSlerp <;>
    simp [preNormalizeOf, hca, hac, hus, RTQuaternion.smul, RTQuaternion.add,
      RTQuaternion.zero]

/-- Concrete state for the C7 amended witness: both sources disabled. -/
theorem both_sources_disabled_skip_correction_witness :
    bothOffState.enableCompass = false ∧ bothOffState.enableAccel = false ∧
    (update bothOffState).stateQ = bothOffState.stateQ.normalize :=
  ⟨rfl, rfl, both_sources_disabled_skip_correction bothOffState rfl rfl⟩

/-- C9: in the idealized real-arithmetic model, the argument the slerp
update passes to the inverse cosine (the scalar of the normalized
rotation delta) always lies in the closed interval from -1 to 1, so the
rotation angle `slerpTheta` is a well-defined angle consistent with its
cosine.  The source performs NO clamping before `acos` (RTFusionRTQF.cpp
line 121); only exact normalization keeps the argument in range, which
floating-point rounding does not guarantee. -/
theorem slerp_acos_argument_in_range_exact_arith (s : FusionState) :
    -1 ≤ (rotationDeltaOf s).scalar ∧ (rotationDeltaOf s).scalar ≤ 1 ∧
    Real.cos (slerpTheta s) = (rotationDeltaOf s).scalar := by
  have hb : -1 ≤ (rotationDeltaOf s).scalar ∧ (rotationDeltaOf s).scalar ≤ 1 := by
    unfold rotationDeltaOf
    set q := (s.stateQ.conjugate).mul s.measuredQPose with hq
    by_cases h0 : q.normSq = 0
    · rw [RTQuaternion.normSq_eq_zero h0, RTQuaternion.normalize_zero]
      norm_num [RTQuaternion.zero]
    · have h1 : (q.normalize).scalar ^ 2 + (q.normalize).x ^ 2 +
          (q.normalize).y ^ 2 + (q.normalize).z ^ 2 = 1 :=
        RTQuaternion.normSq_normalize h0
      constructor
      · nlinarith [sq_nonneg (q.normalize).x, sq_nonneg (q.normalize).y,
          sq_nonneg (q.normalize).z, sq_nonneg ((q.normalize).scalar + 1)]
      · nlinarith [sq_nonneg (q.normalize).x, sq_nonneg (q.normalize).y,
          sq_nonneg (q.normalize).z, sq_nonneg ((q.normalize).scalar - 1)]
  exact ⟨hb.1, hb.2, Real.cos_arccos hb.1 hb.2⟩

lemma calculatePose_mod_comm (L : PoseLib) (s : FusionState) (a m : RTVector3)
    (dec : ℝ) (d : Bool) (n : ℤ) :
    calculatePose L { s with debug := d, sampleNumber := n } a m dec =
      { calculatePose L s a m dec with debug := d, sampleNumber := n } := rfl

lemma predict_mod_comm (s : FusionState) (d : Bool) (n : ℤ) :
    predict { s with debug := d, sampleNumber := n } =
      { predict s with debug := d, sampleNumber := n } := rfl

lemma rotationPowerOf_mod (s : FusionState) (d : Bool) (n : ℤ) :
    rotationPowerOf { s with debug := d, sampleNumber := n } = rotationPowerOf s := rfl

lemma rotationDeltaOf_mod (s : FusionState) (d : Bool) (n : ℤ) :
    rotationDeltaOf { s with debug := d, sampleNumber := n } = rotationDeltaOf s := rfl

lemma rotationUnitVectorOf_mod (s : FusionState) (d : Bool) (n : ℤ) :
    rotationUnitVectorOf { s with debug := d, sampleNumber := n } =
      rotationUnitVectorOf s := rfl

lemma update_mod_comm (s : FusionState) (d : Bool) (n : ℤ) :
    update { s with debug := d, sampleNumber := n } =
      { update s with debug := d, sampleNumber := n } := by
  simp only [update, updateSlerp, updateLinear, rotationPowerOf_mod,
    rotationDeltaOf_mod, rotationUnitVectorOf_mod, preamble_useSlerp]
  cases hus : s.useSlerp <;> cases hoc : (s.enableCompass || s.enableAccel) <;>
    simp [hus, hoc]

/-- C8, counterexample: running one call with the debug flag set and the
same call with it clear yields different filter state: with debug set the
sample counter advances by two (the logging macro argument
`m_sampleNumber++` is evaluated, then the unconditional increment runs),
refuting the claim that the flag has no behavioral effect on state
including `sampleNumber`. -/
theorem debug_flag_changes_sample_number :
    (newIMUData trivialLib { baseState with debug := true } baseData 0).1.sampleNumber ≠
      (newIMUData trivialLib { baseState with debug := false } baseData 0).1.sampleNumber := by
  have hdtT : ¬ timeDeltaOf { baseState with debug := true } baseData ≤ 0 :=
    timeDeltaOf_base_pos
  have hdtF : ¬ timeDeltaOf { baseState with debug := false } baseData ≤ 0 :=
    timeDeltaOf_base_pos
  rw [newIMUData_accepted_eq trivialLib { baseState with debug := true } baseData 0
      rfl hdtT,
    newIMUData_accepted_eq trivialLib { baseState with debug := false } baseData 0
      rfl hdtF]
  simp [baseState]

/-- C8 (amended): the debug flag is observational except for the sample
counter: for every input, the run with debug set produces exactly the
state of the run with debug clear except that `debug` is true and
`sampleNumber` advanced by one extra (two increments per call instead of
one, because the logging macro argument `m_sampleNumber++` is evaluated),
and the caller output record is identical in both runs. -/
theorem debug_flag_affects_only_sample_number (L : PoseLib) (s : FusionState)
    (data : RTIMU_DATA) (declination : ℝ) :
    (newIMUData L { s with debug := true } data declination).1 =
      { (newIMUData L { s with debug := false } data declination).1 with
        debug := true,
        sampleNumber :=
          (newIMUData L { s with debug := false } data declination).1.sampleNumber + 1 } ∧
    (newIMUData L { s with debug := true } data declination).2 =
      (newIMUData L { s with debug := false } data declination).2 := by
  by_cases hft : s.firstTime = true
  case pos =>
    rw [newIMUData_first_eq L { s with debug := true } data declination hft,
      newIMUData_first_eq L { s with debug := false } data declination hft]
    dsimp only
    constructor
    · ext <;> simp
    · ext <;> simp [writeOutputs]
  case neg =>
    have hft2 : s.firstTime = false := Bool.eq_false_iff.mpr hft
    by_cases hdt : timeDeltaOf s data ≤ 0
    · have hdtT : timeDeltaOf { s with debug := true } data ≤ 0 := hdt
      have hdtF : timeDeltaOf { s with debug := false } data ≤ 0 := hdt
      rw [newIMUData_rejected_eq L { s with debug := true } data declination hft2 hdtT,
        newIMUData_rejected_eq L { s with debug := false } data declination hft2 hdtF]
      constructor
      · ext <;> simp
      · rfl
    · have hdtT : ¬ timeDeltaOf { s with debug := true } data ≤ 0 := hdt
      have hdtF : ¬ timeDeltaOf { s with debug := false } data ≤ 0 := hdt
      rw [newIMUData_accepted_eq L { s with debug := true } data declination hft2 hdtT,
        newIMUData_accepted_eq L { s with debug := false } data declination hft2 hdtF]
      have h1 :
          ({ preambleState { s with debug := true } data with
              timeDelta := timeDeltaOf { s with debug := true } data,
              lastFusionTime := data.timestamp } : FusionState) =
          { { preambleState { s with debug := false } data with
              timeDelta := timeDeltaOf { s with debug := false } data,
              lastFusionTime := data.timestamp } with
            debug := true,
            sampleNumber := s.sampleNumber + 1 + 1 } := by
        ext <;> simp
      dsimp only
      rw [h1, calculatePose_mod_comm, predict_mod_comm, update_mod_comm]
      constructor
      · ext <;> simp
      · ext <;> simp [writeOutputs]

lemma updateSlerp_stateQ_enabled (s : FusionState) (hm : s.useSlerp = true)
    (he : (s.enableCompass || s.enableAccel) = true) :
    (update s).stateQ = (s.stateQ.mul (rotationPowerOf s)).normalize := by
  rw [update_stateQ_eq]
  congr 1
  simp [preNormalizeOf, hm, he]

/-- C5: in slerp mode with accel or compass enabled and a unit state
quaternion: with `slerpPower = 0` the correction leaves `stateQ`
unchanged, and with `slerpPower = 1` a single update sets `stateQ` to the
normalization of `measuredQPose` (since
`stateQ * (conjugate(stateQ) * measuredQPose) = measuredQPose`), provided
the rotation delta is not purely scalar (nonzero vector part, so the
rotation axis is defined). -/
theorem slerp_power_bounds (s : FusionState) (hm : s.useSlerp = true)
    (he : (s.enableCompass || s.enableAccel) = true)
    (hq : s.stateQ.normSq = 1) :
    (s.slerpPower = 0 → (update s).stateQ = s.stateQ) ∧
    (s.slerpPower = 1 →
      (rotationDeltaOf s).x ^ 2 + (rotationDeltaOf s).y ^ 2 +
        (rotationDeltaOf s).z ^ 2 ≠ 0 →
      (update s).stateQ = s.measuredQPose.normalize) := by
  have hup : (update s).stateQ = (s.stateQ.mul (rotationPowerOf s)).normalize :=
    updateSlerp_stateQ_enabled s hm he
  constructor
  · intro hp0
    have h0 : slerpTheta s * s.slerpPower = 0 := by rw [hp0, mul_zero]
    have hrp : rotationPowerOf s = (⟨1, 0, 0, 0⟩ : RTQuaternion) := by
      unfold rotationPowerOf
      rw [h0, Real.sin_zero, Real.cos_zero]
      simp only [zero_mul]
      exact RTQuaternion.normalize_of_normSq_one (by norm_num [RTQuaternion.normSq])
    rw [hup, hrp, RTQuaternion.mul_one_q, RTQuaternion.normalize_of_normSq_one hq]
  · intro hp1 hv
    have h1 : ((s.stateQ.conjugate).mul s.measuredQPose).normSq =
        s.measuredQPose.normSq := by
      rw [RTQuaternion.normSq_mul, RTQuaternion.normSq_conjugate, hq, one_mul]
    have h2 : ((s.stateQ.conjugate).mul s.measuredQPose).normSq ≠ 0 := by
      intro h0
      apply hv
      have hz : rotationDeltaOf s = RTQuaternion.zero := by
        unfold rotationDeltaOf
        rw [RTQuaternion.normSq_eq_zero h0, RTQuaternion.normalize_zero]
      rw [hz]
      norm_num [RTQuaternion.zero]
    have h3 : (rotationDeltaOf s).normSq = 1 := RTQuaternion.normSq_normalize h2
    have hvnn : 0 ≤ (rotationDeltaOf s).x ^ 2 + (rotationDeltaOf s).y ^ 2 +
        (rotationDeltaOf s).z ^ 2 := by positivity
    have hvpos : 0 < (rotationDeltaOf s).x ^ 2 + (rotationDeltaOf s).y ^ 2 +
        (rotationDeltaOf s).z ^ 2 := lt_of_le_of_ne hvnn (Ne.symm hv)
    have hsq : (rotationDeltaOf s).scalar ^ 2 +
        ((rotationDeltaOf s).x ^ 2 + (rotationDeltaOf s).y ^ 2 +
          (rotationDeltaOf s).z ^ 2) = 1 := by
      have h4 := h3
      unfold RTQuaternion.normSq at h4
      linarith
    have hb1 : -1 ≤ (rotationDeltaOf s).scalar := by
      nlinarith [sq_nonneg ((rotationDeltaOf s).scalar + 1)]
    have hb2 : (rotationDeltaOf s).scalar ≤ 1 := by
      nlinarith [sq_nonneg ((rotationDeltaOf s).scalar - 1)]
    have hvne : Real.sqrt ((rotationDeltaOf s).x ^ 2 + (rotationDeltaOf s).y ^ 2 +
        (rotationDeltaOf s).z ^ 2) ≠ 0 := ne_of_gt (Real.sqrt_pos.mpr hvpos)
    have hsin : Real.sin (slerpTheta s) =
        Real.sqrt ((rotationDeltaOf s).x ^ 2 + (rotationDeltaOf s).y ^ 2 +
          (rotationDeltaOf s).z ^ 2) := by
      unfold slerpTheta
      rw [Real.sin_arccos]
      congr 1
      linarith
    have hcos : Real.cos (slerpTheta s) = (rotationDeltaOf s).scalar :=
      Real.cos_arccos hb1 hb2
    have hcomp : ∀ a : ℝ,
        Real.sqrt ((rotationDeltaOf s).x ^ 2 + (rotationDeltaOf s).y ^ 2 +
          (rotationDeltaOf s).z ^ 2) *
          ((Real.sqrt ((rotationDeltaOf s).x ^ 2 + (rotationDeltaOf s).y ^ 2 +
            (rotationDeltaOf s).z ^ 2))⁻¹ * a) = a := by
      intro a
      rw [← mul_assoc, mul_inv_cancel₀ hvne, one_mul]
    have hrp : rotationPowerOf s = rotationDeltaOf s := by
      unfold rotationPowerOf rotationUnitVectorOf
      rw [hp1, mul_one, hsin, hcos]
      simp only [RTVector3.normalize, RTVector3.smul, RTVector3.normSq, hcomp]
      have heta : (RTQuaternion.mk (rotationDeltaOf s).scalar (rotationDeltaOf s).x
          (rotationDeltaOf s).y (rotationDeltaOf s).z) = rotationDeltaOf s := rfl
      rw [heta]
      exact RTQuaternion.normalize_of_normSq_one h3
    have hmul : s.stateQ.mul (rotationDeltaOf s) = s.measuredQPose.normalize := by
      unfold rotationDeltaOf
      simp only [RTQuaternion.normalize]
      rw [RTQuaternion.mul_smul_right, ← RTQuaternion.mul_assoc3,
        RTQuaternion.mul_conjugate_self, hq, RTQuaternion.one_mul_q, h1]
    have hmne : s.measuredQPose.normSq ≠ 0 := by
      rw [← h1]
      exact h2
    rw [hup, hrp, hmul]
    exact RTQuaternion.normalize_of_normSq_one (RTQuaternion.normSq_normalize hmne)

/-- Concrete state for the C5 witness: slerp mode, `slerpPower = 1`,
measured pose orthogonal to the state. -/
theorem slerp_power_bounds_witness :
    slerpOneState.useSlerp = true ∧
    (slerpOneState.enableCompass || slerpOneState.enableAccel) = true ∧
    slerpOneState.stateQ.normSq = 1 ∧
    (update slerpOneState).stateQ = slerpOneState.measuredQPose.normalize := by
  have hq : slerpOneState.stateQ.normSq = 1 := by
    norm_num [slerpOneState, baseState, RTQuaternion.normSq]
  have hrd : rotationDeltaOf slerpOneState = (⟨0, 1, 0, 0⟩ : RTQuaternion) := by
    unfold rotationDeltaOf
    norm_num [slerpOneState, baseState, RTQuaternion.conjugate, RTQuaternion.mul,
      RTQuaternion.normalize, RTQuaternion.normSq, RTQuaternion.smul, Real.sqrt_one]
  have hv : (rotationDeltaOf slerpOneState).x ^ 2 +
      (rotationDeltaOf slerpOneState).y ^ 2 +
      (rotationDeltaOf slerpOneState).z ^ 2 ≠ 0 := by
    rw [hrd]
    norm_num
  exact ⟨rfl, rfl, hq, (slerp_power_bounds slerpOneState rfl rfl hq).2 rfl hv⟩

end RTQF
